import Mathlib

/-!
Verification of the pfips county/FIPS lookup service core logic:
county-name normalization, the three dataset lookup functions, API-key
authentication resolution, usage logging, and the protected search route,
embedded from `src/main.py` (with the data model from `src/db.py`).

The reference dataset (`fips_list.json`) is modelled as an explicit
`List County` argument; the relational store is modelled as a `Db` record
holding the three tables, threaded explicitly through the stateful
operations. Timestamps and server-assigned ids are explicit parameters.
Python string primitives (`.upper()`, `.endswith()`, `.strip()`, string
truthiness) are embedded as character-list operations, which agree with
Python on the ASCII data this service handles.
-/

deriving instance DecidableEq for Except

namespace Pfips

/-- Python `s.upper()`: character-wise uppercasing. -/
def pyUpper (s : String) : String := ⟨s.data.map Char.toUpper⟩

/-- Python `s.endswith(suffix)`. -/
def pyEndsWith (s suffix : String) : Bool := suffix.data.isSuffixOf s.data

/-- Python `s.strip()`: drop leading and trailing whitespace. -/
def pyStrip (s : String) : String :=
  ⟨((s.data.dropWhile Char.isWhitespace).reverse.dropWhile Char.isWhitespace).reverse⟩

/-- Python truthiness of a string (`if not s` is the negation): true iff
non-empty. -/
def pyTruthy (s : String) : Bool := !s.data.isEmpty

/-- A record of the reference dataset (`County` pydantic model / one entry
of `fips_list.json`). -/
structure County where
  county : String
  state : String
  fips : String
  stateAbbrev : String
deriving Repr, DecidableEq

/-- `users` table row (`db.py`, class `User`). `created_at` is an abstract
timestamp. -/
structure User where
  id : Nat
  email : String
  name : String
  is_active : Bool
  created_at : Nat
deriving Repr, DecidableEq

/-- `api_keys` table row (`db.py`, class `APIKey`). -/
structure APIKey where
  key : String
  user_id : Nat
  name : String
  is_active : Bool
  created_at : Nat
  last_used_at : Option Nat
deriving Repr, DecidableEq

/-- `usage_logs` table row (`db.py`, class `UsageLog`). -/
structure UsageLog where
  id : Nat
  user_id : Nat
  api_key_str : String
  endpoint : String
  method : String
  status_code : Nat
  timestamp : Nat
deriving Repr, DecidableEq

/-- The relational store: the three tables, in insertion order. -/
structure Db where
  users : List User
  api_keys : List APIKey
  usage_logs : List UsageLog
deriving Repr, DecidableEq

/-- A raised `HTTPException status_code detail`. -/
inductive ApiError where
  | httpError (status_code : Nat) (detail : String)
deriving Repr, DecidableEq

/-- Result shape of `get_county_by_state_and_name`, which returns either a
list of records or a user-facing advisory string
(`Union[List[County], str]`). -/
inductive SearchResult where
  | records (cs : List County)
  | advisory (msg : String)
deriving Repr, DecidableEq

/-- `normalize_county` (`main.py` lines 103-114): uppercase; when the
uppercased string ends in neither " COUNTY" nor " PARISH", strip it and
append " PARISH" (Louisiana) or " COUNTY"; otherwise return the uppercased
string as is. -/
def normalize_county (county : String) (is_louisiana : Bool := false) : String :=
  let cased := pyUpper county
  let ends_with_county := pyEndsWith cased " COUNTY"
  let ends_with_parish := pyEndsWith cased " PARISH"
  if !ends_with_county && !ends_with_parish then
    if is_louisiana then
      pyStrip cased ++ " PARISH"
    else
      pyStrip cased ++ " COUNTY"
  else
    cased

/-- `get_counties_by_state` (`main.py` lines 117-131): uppercase the state,
keep every dataset record whose `state` field equals it, 404 when none. -/
def get_counties_by_state (counties : List County) (state : String) :
    Except ApiError (List County) :=
  let normalized_state := pyUpper state
  let state_counties := counties.filter (fun county => county.state == normalized_state)
  if state_counties.isEmpty then
    .error (.httpError 404 "No results found")
  else
    .ok state_counties

/-- `get_counties_by_name` (`main.py` lines 134-148): normalize the name
(non-Louisiana path), keep every record whose `county` field equals it,
404 when none. -/
def get_counties_by_name (counties : List County) (name : String) :
    Except ApiError (List County) :=
  let normalized_county := normalize_county name
  let state_counties := counties.filter (fun county => county.county == normalized_county)
  if state_counties.isEmpty then
    .error (.httpError 404 "No results found")
  else
    .ok state_counties

/-- The loop condition of `get_county_by_state_and_name` (`main.py` lines
166-170): state or abbreviation matches the normalized state, and the
county field matches the normalized county. -/
def county_match (normalized_state normalized_county : String) (c : County) : Bool :=
  (c.state == normalized_state || c.stateAbbrev == normalized_state) &&
    c.county == normalized_county

/-- `get_county_by_state_and_name` (`main.py` lines 151-173): advisory
string when either input is falsy (empty); otherwise return a one-element
list with the first record matching `county_match` (the loop returns on
the first hit), 404 when none. The Louisiana flag is the raw input state
compared with the literal "LOUSIANA" (line 159). -/
def get_county_by_state_and_name (counties : List County)
    (state county_name : String) : Except ApiError SearchResult :=
  if !pyTruthy county_name || !pyTruthy state then
    .ok (.advisory "Please provide a county name and state")
  else
    let normalized_state := pyUpper state
    let normalized_county := normalize_county county_name (state == "LOUSIANA")
    match counties.find? (county_match normalized_state normalized_county) with
    | some county => .ok (.records [county])
    | none => .error (.httpError 404 "No results found")

/-- On the no-suffix branch `normalize_county` strips the uppercased input
and appends the suffix chosen by the Louisiana flag. -/
lemma normalize_county_append (s : String) (isla : Bool)
    (hc : pyEndsWith (pyUpper s) " COUNTY" = false)
    (hp : pyEndsWith (pyUpper s) " PARISH" = false) :
    normalize_county s isla = pyStrip (pyUpper s) ++ (if isla then " PARISH" else " COUNTY") := by
  simp only [normalize_county, hc, hp]
  cases isla <;> simp

/-- On the already-suffixed branch `normalize_county` returns the
uppercased input unchanged. -/
lemma normalize_county_suffixed (s : String) (isla : Bool)
    (h : pyEndsWith (pyUpper s) " COUNTY" = true ∨ pyEndsWith (pyUpper s) " PARISH" = true) :
    normalize_county s isla = pyUpper s := by
  rcases h with h | h <;> simp [normalize_county, h]

/-- Claim C5: `normalize_county` uppercases the input; when the uppercased
string does not already end in " COUNTY" or " PARISH" it is trimmed and
the suffix " PARISH" (when `is_louisiana`) or " COUNTY" is appended; when
it already carries one of the suffixes the result is the input unchanged
except for case; and the two spec examples hold. -/
theorem normalize_county_spec (s : String) (isla : Bool) :
    ((¬ pyEndsWith (pyUpper s) " COUNTY" = true ∧ ¬ pyEndsWith (pyUpper s) " PARISH" = true) →
      normalize_county s isla = pyStrip (pyUpper s) ++ (if isla then " PARISH" else " COUNTY")) ∧
    ((pyEndsWith (pyUpper s) " COUNTY" = true ∨ pyEndsWith (pyUpper s) " PARISH" = true) →
      normalize_county s isla = pyUpper s) ∧
    normalize_county "Jefferson" false = "JEFFERSON COUNTY" ∧
    normalize_county "Jefferson Parish" false = "JEFFERSON PARISH" := by
  refine ⟨?_, normalize_county_suffixed s isla, by decide, by decide⟩
  rintro ⟨h1, h2⟩
  rw [Bool.not_eq_true] at h1 h2
  exact normalize_county_append s isla h1 h2

/-- Witness for C5 at concrete inputs: "orleans" with the Louisiana flag
gets " PARISH" appended. -/
theorem normalize_county_spec_witness :
    normalize_county "orleans" true = "ORLEANS PARISH" := by
  have h := (normalize_county_spec "orleans" true).1 (by decide)
  simpa using h

/-- A small concrete reference dataset used by witnesses. -/
def sampleCounties : List County :=
  [⟨"HARRIS COUNTY", "TEXAS", "48201", "TX"⟩,
   ⟨"TRAVIS COUNTY", "TEXAS", "48453", "TX"⟩,
   ⟨"ORLEANS PARISH", "LOUISIANA", "22071", "LA"⟩,
   ⟨"WASHINGTON COUNTY", "TEXAS", "48477", "TX"⟩]

/-- A dataset with two records matching the same state-and-county query,
used to witness the first-match behaviour. -/
def duplicateCounties : List County :=
  [⟨"WASHINGTON COUNTY", "TEXAS", "48477", "TX"⟩,
   ⟨"WASHINGTON COUNTY", "TEXAS", "99999", "TX"⟩]

/-- `county_match` holds exactly when the state or abbreviation equals the
normalized state and the county field equals the normalized county. -/
lemma county_match_eq_true {ns nc : String} {c : County} :
    county_match ns nc c = true ↔ (c.state = ns ∨ c.stateAbbrev = ns) ∧ c.county = nc := by
  simp [county_match]

/-- Claim C7: `get_counties_by_state` returns exactly the dataset records
whose state field equals the uppercased input (an order-preserving
sublist, with membership characterised by the exact-match predicate and
no abbreviation fallback), and it fails with 404 precisely when zero
records match. -/
theorem get_counties_by_state_spec (counties : List County) (state : String) :
    (∀ cs, get_counties_by_state counties state = .ok cs →
      cs = counties.filter (fun county => county.state == pyUpper state) ∧
      cs.Sublist counties ∧
      ∀ r, r ∈ cs ↔ r ∈ counties ∧ r.state = pyUpper state) ∧
    (get_counties_by_state counties state = .error (.httpError 404 "No results found") ↔
      ∀ r ∈ counties, r.state ≠ pyUpper state) := by
  constructor
  · intro cs hcs
    simp only [get_counties_by_state] at hcs
    split at hcs
    · cases hcs
    · injection hcs with h
      subst h
      refine ⟨rfl, List.filter_sublist counties, ?_⟩
      intro r
      simp [List.mem_filter]
  · constructor
    · intro h r hr
      simp only [get_counties_by_state] at h
      split at h
      · rename_i hemp
        rw [List.isEmpty_iff, List.filter_eq_nil_iff] at hemp
        intro hcontra
        have := hemp r hr
        simp [hcontra] at this
      · cases h
    · intro hall
      simp only [get_counties_by_state]
      have hemp : counties.filter (fun county => county.state == pyUpper state) = [] := by
        rw [List.filter_eq_nil_iff]
        intro a ha
        simp only [beq_iff_eq]
        exact hall a ha
      rw [hemp]
      rfl

/-- Witness for C7: looking up "Texas" in the sample dataset succeeds and
yields exactly the three TEXAS records as an order-preserving sublist. -/
theorem get_counties_by_state_spec_witness :
    ([⟨"HARRIS COUNTY", "TEXAS", "48201", "TX"⟩,
      ⟨"TRAVIS COUNTY", "TEXAS", "48453", "TX"⟩,
      ⟨"WASHINGTON COUNTY", "TEXAS", "48477", "TX"⟩] : List County).Sublist sampleCounties ∧
    (∀ r, r ∈ ([⟨"HARRIS COUNTY", "TEXAS", "48201", "TX"⟩,
      ⟨"TRAVIS COUNTY", "TEXAS", "48453", "TX"⟩,
      ⟨"WASHINGTON COUNTY", "TEXAS", "48477", "TX"⟩] : List County) ↔
        r ∈ sampleCounties ∧ r.state = pyUpper "Texas") :=
  ⟨((get_counties_by_state_spec sampleCounties "Texas").1 _ (by decide)).2.1,
   ((get_counties_by_state_spec sampleCounties "Texas").1 _ (by decide)).2.2⟩

/-- Claim C6: for truthy (non-empty) inputs, every record that
`get_county_by_state_and_name` returns matches the uppercased state on the
state field or the abbreviation field, and matches the normalized county
on the county field; when no dataset record satisfies this predicate it
fails with 404; and when either input is empty it returns the advisory
string instead of an error. -/
theorem get_county_by_state_and_name_spec (counties : List County) (state county : String) :
    (pyTruthy state = true → pyTruthy county = true →
      (∀ cs r, get_county_by_state_and_name counties state county = .ok (.records cs) →
        r ∈ cs →
        (r.state = pyUpper state ∨ r.stateAbbrev = pyUpper state) ∧
        r.county = normalize_county county (state == "LOUSIANA")) ∧
      ((∀ r ∈ counties, ¬((r.state = pyUpper state ∨ r.stateAbbrev = pyUpper state) ∧
          r.county = normalize_county county (state == "LOUSIANA"))) →
        get_county_by_state_and_name counties state county =
          .error (.httpError 404 "No results found"))) ∧
    ((pyTruthy state = false ∨ pyTruthy county = false) →
      get_county_by_state_and_name counties state county =
        .ok (.advisory "Please provide a county name and state")) := by
  constructor
  · intro hs hc
    constructor
    · intro cs r hok hr
      simp only [get_county_by_state_and_name, hs, hc] at hok
      simp only [Bool.not_true, Bool.or_self, Bool.false_eq_true, if_false] at hok
      split at hok
      · rename_i c hfind
        injection hok with h
        injection h with h
        subst h
        rw [List.mem_singleton] at hr
        subst hr
        exact county_match_eq_true.mp (List.find?_some hfind)
      · cases hok
    · intro hnone
      simp only [get_county_by_state_and_name, hs, hc]
      simp only [Bool.not_true, Bool.or_self, Bool.false_eq_true, if_false]
      have hfind : counties.find?
          (county_match (pyUpper state) (normalize_county county (state == "LOUSIANA"))) = none := by
        rw [List.find?_eq_none]
        intro x hx hmatch
        exact hnone x hx (county_match_eq_true.mp hmatch)
      rw [hfind]
  · intro h
    rcases h with h | h <;>
      simp [get_county_by_state_and_name, h]

/-- Witness for C6: in the sample dataset the abbreviation "TX" resolves
"Harris" via the stateAbbrev field, and an empty state input yields the
advisory string. -/
theorem get_county_by_state_and_name_spec_witness :
    (((⟨"HARRIS COUNTY", "TEXAS", "48201", "TX"⟩ : County).state = pyUpper "TX" ∨
      (⟨"HARRIS COUNTY", "TEXAS", "48201", "TX"⟩ : County).stateAbbrev = pyUpper "TX") ∧
     (⟨"HARRIS COUNTY", "TEXAS", "48201", "TX"⟩ : County).county =
       normalize_county "Harris" ("TX" == "LOUSIANA")) ∧
    get_county_by_state_and_name sampleCounties "" "Harris" =
      .ok (.advisory "Please provide a county name and state") :=
  ⟨((get_county_by_state_and_name_spec sampleCounties "TX" "Harris").1
      (by decide) (by decide)).1 [⟨"HARRIS COUNTY", "TEXAS", "48201", "TX"⟩]
      ⟨"HARRIS COUNTY", "TEXAS", "48201", "TX"⟩ (by decide) (by decide),
   (get_county_by_state_and_name_spec sampleCounties "" "Harris").2 (Or.inl (by decide))⟩

/-- Claim C4: the Louisiana flag of `get_county_by_state_and_name` compares
the input state with the misspelled literal "LOUSIANA", which the correctly
spelled "LOUISIANA" does not equal; hence for any suffix-free county name a
lookup with state "LOUISIANA" searches for the county normalized with
`is_louisiana = false`, i.e. with " COUNTY" appended rather than
" PARISH". -/
theorem louisiana_flag_misspelled (counties : List County) (name : String)
    (hname : pyTruthy name = true)
    (hc : pyEndsWith (pyUpper name) " COUNTY" = false)
    (hp : pyEndsWith (pyUpper name) " PARISH" = false) :
    ("LOUISIANA" == "LOUSIANA") = false ∧
    normalize_county name ("LOUISIANA" == "LOUSIANA") = pyStrip (pyUpper name) ++ " COUNTY" ∧
    get_county_by_state_and_name counties "LOUISIANA" name =
      (match counties.find? (county_match "LOUISIANA" (pyStrip (pyUpper name) ++ " COUNTY")) with
       | some county => .ok (.records [county])
       | none => .error (.httpError 404 "No results found")) := by
  have hbeq : ("LOUISIANA" == "LOUSIANA") = false := by decide
  have hnorm : normalize_county name ("LOUISIANA" == "LOUSIANA") =
      pyStrip (pyUpper name) ++ " COUNTY" := by
    rw [hbeq, normalize_county_append name false hc hp]
    simp
  refine ⟨hbeq, hnorm, ?_⟩
  simp only [get_county_by_state_and_name, hname]
  have hup : pyUpper "LOUISIANA" = "LOUISIANA" := by decide
  have htr : pyTruthy "LOUISIANA" = true := by decide
  rw [htr, hup, hnorm]
  simp

/-- Witness for C4: with the correctly spelled state "LOUISIANA" the
suffix-free name "Orleans" is normalized to "ORLEANS COUNTY", so the
sample record "ORLEANS PARISH" is missed and the lookup fails with 404. -/
theorem louisiana_flag_misspelled_witness :
    get_county_by_state_and_name sampleCounties "LOUISIANA" "Orleans" =
      .error (.httpError 404 "No results found") := by
  have h := (louisiana_flag_misspelled sampleCounties "Orleans"
    (by decide) (by decide) (by decide)).2.2
  rw [h]
  decide

/-- Claim C9: for truthy inputs, a successful `get_county_by_state_and_name`
returns a one-element list holding the first record in dataset order that
satisfies the match predicate: the dataset splits as a prefix of
non-matching records, the returned record, and a remainder (which may
contain further matches). -/
theorem get_county_by_state_and_name_first_match (counties : List County)
    (state county : String)
    (hs : pyTruthy state = true) (hc : pyTruthy county = true)
    (cs : List County)
    (hok : get_county_by_state_and_name counties state county = .ok (.records cs)) :
    ∃ c l1 l2, cs = [c] ∧ counties = l1 ++ c :: l2 ∧
      county_match (pyUpper state) (normalize_county county (state == "LOUSIANA")) c = true ∧
      ∀ x ∈ l1,
        county_match (pyUpper state) (normalize_county county (state == "LOUSIANA")) x = false := by
  simp only [get_county_by_state_and_name, hs, hc] at hok
  simp only [Bool.not_true, Bool.or_self, Bool.false_eq_true, if_false] at hok
  split at hok
  · rename_i c hfind
    injection hok with h
    injection h with h
    subst h
    rw [List.find?_eq_some] at hfind
    obtain ⟨hpc, l1, l2, hsplit, hprefix⟩ := hfind
    refine ⟨c, l1, l2, rfl, hsplit, hpc, ?_⟩
    intro x hx
    have := hprefix x hx
    simpa using this
  · cases hok

/-- Witness for C9: with two identical Washington County, Texas records in
the dataset, the lookup returns only the first. -/
theorem get_county_by_state_and_name_first_match_witness :
    ∃ c l1 l2, ([⟨"WASHINGTON COUNTY", "TEXAS", "48477", "TX"⟩] : List County) = [c] ∧
      duplicateCounties = l1 ++ c :: l2 ∧
      county_match (pyUpper "Texas")
        (normalize_county "Washington" ("Texas" == "LOUSIANA")) c = true ∧
      ∀ x ∈ l1, county_match (pyUpper "Texas")
        (normalize_county "Washington" ("Texas" == "LOUSIANA")) x = false :=
  get_county_by_state_and_name_first_match duplicateCounties "Texas" "Washington"
    (by decide) (by decide) _ (by decide)

/-- The request data `county_search` and `log_usage` read: URL path and
HTTP method. -/
structure Request where
  path : String
  method : String
deriving Repr, DecidableEq

/-- Python truthiness of an optional string query parameter (`if not state`
is the negation): true iff present and non-empty. -/
def optTruthy : Option String → Bool
  | none => false
  | some s => pyTruthy s

/-- The committed effect of `api_key.last_used_at = datetime.now(...)` in
`verify_api_key`: set `last_used_at` on the first active key matching the
token (the row object `.first()` returned). -/
def setLastUsed (keys : List APIKey) (token : String) (now : Nat) : List APIKey :=
  match keys with
  | [] => []
  | k :: rest =>
    if k.key == token && k.is_active then
      { k with last_used_at := some now } :: rest
    else
      k :: setLastUsed rest token now

/-- `verify_api_key` (`main.py` lines 51-80): find the first active key
with the given token (401 "Invalid or inactive API key" when none), find
the first active user with the key's user id (401 "User account is
inactive" when none), then set the key's `last_used_at` to the current
time, commit, and return the pair. The result carries the store state
after the call. -/
def verify_api_key (db : Db) (token : String) (now : Nat) :
    Except ApiError (APIKey × User) × Db :=
  match db.api_keys.find? (fun k => k.key == token && k.is_active) with
  | none => (.error (.httpError 401 "Invalid or inactive API key"), db)
  | some api_key =>
    match db.users.find? (fun u => u.id == api_key.user_id && u.is_active) with
    | none => (.error (.httpError 401 "User account is inactive"), db)
    | some user =>
      (.ok ({ api_key with last_used_at := some now }, user),
       { db with api_keys := setLastUsed db.api_keys token now })

/-- `log_usage` (`main.py` lines 83-100): append one `UsageLog` row for the
authenticated user and key, recording the request path, method and status
code, and commit. The row id and timestamp are store-assigned, modelled as
parameters. -/
def log_usage (req : Request) (auth_data : APIKey × User) (db : Db)
    (status_code : Nat) (logId now : Nat) : Db :=
  { db with usage_logs := db.usage_logs ++
      [{ id := logId, user_id := auth_data.2.id, api_key_str := auth_data.1.key,
         endpoint := req.path, method := req.method, status_code := status_code,
         timestamp := now }] }

/-- `county_search` (`main.py` lines 194-215): the protected search route.
Authentication (`Depends(verify_api_key)`) runs first; 400 when both query
parameters are falsy; otherwise `log_usage` is awaited with status 200 and
then the matching lookup function runs, whose `HTTPException` (if any)
propagates after the log was committed. The result carries the final store
state. -/
def county_search (counties : List County) (db : Db) (req : Request) (token : String)
    (state county : Option String) (now logId : Nat) :
    Except ApiError SearchResult × Db :=
  let vres := verify_api_key db token now
  match vres.1 with
  | .error e => (.error e, vres.2)
  | .ok auth_data =>
    let db1 := vres.2
    if !optTruthy state && !optTruthy county then
      (.error (.httpError 400 "Invalid request: missing search parameters"), db1)
    else if optTruthy state && !optTruthy county then
      let db2 := log_usage req auth_data db1 200 logId now
      (match get_counties_by_state counties (state.getD "") with
       | .ok cs => (.ok (.records cs), db2)
       | .error e => (.error e, db2))
    else if optTruthy county && !optTruthy state then
      let db2 := log_usage req auth_data db1 200 logId now
      (match get_counties_by_name counties (county.getD "") with
       | .ok cs => (.ok (.records cs), db2)
       | .error e => (.error e, db2))
    else
      let db2 := log_usage req auth_data db1 200 logId now
      (match get_county_by_state_and_name counties (state.getD "") (county.getD "") with
       | .ok r => (.ok r, db2)
       | .error e => (.error e, db2))

/-- `create_api_key` (`main.py` lines 228-242): 404 when no user has the
given id (no activity check); otherwise insert a new key row for that user
(active, `last_used_at` unset) and return `(key, user_id, name)`. The
generated `secrets.token_urlsafe(32)` value is modelled as the `token`
parameter. -/
def create_api_key (db : Db) (user_id : Nat) (name token : String) (now : Nat) :
    Except ApiError (String × Nat × String) × Db :=
  match db.users.find? (fun u => u.id == user_id) with
  | none => (.error (.httpError 404 "User not found"), db)
  | some _ =>
    let api_key : APIKey :=
      { key := token, user_id := user_id, name := name, is_active := true,
        created_at := now, last_used_at := none }
    (.ok (token, user_id, name), { db with api_keys := db.api_keys ++ [api_key] })

/-- `get_usage` (`main.py` lines 245-249): the logs of one user and their
count (`total_requests`). -/
def get_usage (db : Db) (user_id : Nat) : Nat × List UsageLog :=
  let logs := db.usage_logs.filter (fun log => log.user_id == user_id)
  (logs.length, logs)

/-- `verify_api_key` never touches the usage table. -/
lemma verify_api_key_usage_logs (db : Db) (token : String) (now : Nat) :
    (verify_api_key db token now).2.usage_logs = db.usage_logs := by
  cases hk : db.api_keys.find? (fun k => k.key == token && k.is_active) with
  | none => simp [verify_api_key, hk]
  | some k =>
    cases hu : db.users.find? (fun u => u.id == k.user_id && u.is_active) with
    | none => simp [verify_api_key, hk, hu]
    | some u => simp [verify_api_key, hk, hu]

/-- The updated first matching key is stored by `setLastUsed`. -/
lemma setLastUsed_mem {keys : List APIKey} {token : String} (now : Nat) {k : APIKey}
    (h : keys.find? (fun x => x.key == token && x.is_active) = some k) :
    { k with last_used_at := some now } ∈ setLastUsed keys token now := by
  induction keys with
  | nil => cases h
  | cons a rest ih =>
    rw [List.find?_cons_eq_some] at h
    simp only [Bool.not_eq_true'] at h
    rcases h with ⟨hpa, rfl⟩ | ⟨hpa, hfind⟩
    · simp only [setLastUsed, hpa, if_true]
      exact List.mem_cons_self _ _
    · simp only [setLastUsed, hpa, Bool.false_eq_true, if_false]
      exact List.mem_cons_of_mem a (ih hfind)

/-- An active sample user, for witnesses. -/
def sampleUser : User := ⟨1, "alice@example.com", "Alice", true, 0⟩

/-- An active sample key owned by `sampleUser`. -/
def sampleKey : APIKey := ⟨"tok-abc", 1, "ci", true, 0, none⟩

/-- A store with one active user owning one active key. -/
def sampleDb : Db := ⟨[sampleUser], [sampleKey], []⟩

/-- A store whose only key is revoked (`is_active = false`). -/
def revokedKeyDb : Db := ⟨[sampleUser], [⟨"tok-rev", 1, "ci", false, 0, none⟩], []⟩

/-- A store with a single inactive user and no keys. -/
def inactiveUserDb : Db := ⟨[⟨7, "bob@example.com", "Bob", false, 0⟩], [], []⟩

/-- A store with a single active user and no keys. -/
def activeUserDb : Db := ⟨[⟨3, "carol@example.com", "Carol", true, 0⟩], [], []⟩

/-- Claim C1: `verify_api_key` fails with 401 when no active key carries
the token; when the first such key's owner has no active user row it fails
with 401; when both exist it returns the key with `last_used_at` set to
the current time together with the owning user, and the updated key is
persisted in the store it returns. -/
theorem verify_api_key_spec (db : Db) (token : String) (now : Nat) :
    ((∀ k ∈ db.api_keys, ¬(k.key = token ∧ k.is_active = true)) →
      verify_api_key db token now =
        (.error (.httpError 401 "Invalid or inactive API key"), db)) ∧
    (∀ k, db.api_keys.find? (fun x => x.key == token && x.is_active) = some k →
      ((∀ u ∈ db.users, ¬(u.id = k.user_id ∧ u.is_active = true)) →
        verify_api_key db token now =
          (.error (.httpError 401 "User account is inactive"), db)) ∧
      (∀ u, db.users.find? (fun x => x.id == k.user_id && x.is_active) = some u →
        verify_api_key db token now =
          (.ok ({ k with last_used_at := some now }, u),
           { db with api_keys := setLastUsed db.api_keys token now }) ∧
        { k with last_used_at := some now } ∈ setLastUsed db.api_keys token now ∧
        k.key = token ∧ k.is_active = true ∧ u.id = k.user_id ∧ u.is_active = true)) := by
  refine ⟨?_, ?_⟩
  · intro hnone
    have hfind : db.api_keys.find? (fun x => x.key == token && x.is_active) = none := by
      rw [List.find?_eq_none]
      intro x hx
      simp only [Bool.and_eq_true, beq_iff_eq]
      exact hnone x hx
    simp [verify_api_key, hfind]
  · intro k hk
    have hkprop := List.find?_some hk
    simp only [Bool.and_eq_true, beq_iff_eq] at hkprop
    refine ⟨?_, ?_⟩
    · intro hnou
      have hfind : db.users.find? (fun x => x.id == k.user_id && x.is_active) = none := by
        rw [List.find?_eq_none]
        intro x hx
        simp only [Bool.and_eq_true, beq_iff_eq]
        exact hnou x hx
      simp [verify_api_key, hk, hfind]
    · intro u hu
      have huprop := List.find?_some hu
      simp only [Bool.and_eq_true, beq_iff_eq] at huprop
      exact ⟨by simp [verify_api_key, hk, hu], setLastUsed_mem now hk,
        hkprop.1, hkprop.2, huprop.1, huprop.2⟩

/-- Witness for C1: authenticating with the sample token succeeds, stamps
the key, and persists it. -/
theorem verify_api_key_spec_witness :
    verify_api_key sampleDb "tok-abc" 5 =
      (.ok ({ sampleKey with last_used_at := some 5 }, sampleUser),
       { sampleDb with api_keys := setLastUsed sampleDb.api_keys "tok-abc" 5 }) ∧
    { sampleKey with last_used_at := some 5 } ∈ setLastUsed sampleDb.api_keys "tok-abc" 5 ∧
    sampleKey.key = "tok-abc" ∧ sampleKey.is_active = true ∧
    sampleUser.id = sampleKey.user_id ∧ sampleUser.is_active = true :=
  ((verify_api_key_spec sampleDb "tok-abc" 5).2 sampleKey (by decide)).2
    sampleUser (by decide)

/-- Claim C10: when `verify_api_key` fails with an error, the store it
returns is exactly the input store — the timestamp update and commit occur
only after both checks pass. -/
theorem verify_api_key_failure_atomic (db : Db) (token : String) (now : Nat)
    (e : ApiError) (h : (verify_api_key db token now).1 = .error e) :
    (verify_api_key db token now).2 = db := by
  cases hk : db.api_keys.find? (fun k => k.key == token && k.is_active) with
  | none => simp [verify_api_key, hk]
  | some k =>
    cases hu : db.users.find? (fun u => u.id == k.user_id && u.is_active) with
    | none => simp [verify_api_key, hk, hu]
    | some u => simp [verify_api_key, hk, hu] at h

/-- Witness for C10: a revoked key fails authentication and leaves the
store untouched. -/
theorem verify_api_key_failure_atomic_witness :
    (verify_api_key revokedKeyDb "tok-rev" 5).2 = revokedKeyDb :=
  verify_api_key_failure_atomic revokedKeyDb "tok-rev" 5
    (.httpError 401 "Invalid or inactive API key") (by decide)

/-- When authentication succeeds and at least one search parameter is
truthy, the store `county_search` leaves behind is the authenticated store
with one usage row appended — regardless of the search outcome, since
`log_usage` runs before the lookup. -/
lemma county_search_db_on_params (counties : List County) (db : Db) (req : Request)
    (token : String) (state county : Option String) (now logId : Nat)
    (k : APIKey) (u : User)
    (h1 : (verify_api_key db token now).1 = .ok (k, u))
    (h2 : optTruthy state = true ∨ optTruthy county = true) :
    (county_search counties db req token state county now logId).2 =
      log_usage req (k, u) (verify_api_key db token now).2 200 logId now := by
  rcases Bool.eq_false_or_eq_true (optTruthy state) with hs | hs <;>
    rcases Bool.eq_false_or_eq_true (optTruthy county) with hc | hc
  · simp only [county_search, h1, hs, hc, Bool.not_true, Bool.and_self, Bool.true_and,
      Bool.and_false, Bool.false_eq_true, if_false]
    split <;> rfl
  · simp only [county_search, h1, hs, hc, Bool.not_true, Bool.not_false, Bool.and_false,
      Bool.false_and, Bool.and_true, Bool.true_and, Bool.false_eq_true, if_false, if_true]
    split <;> rfl
  · simp only [county_search, h1, hs, hc, Bool.not_true, Bool.not_false, Bool.and_false,
      Bool.false_and, Bool.and_true, Bool.true_and, Bool.false_eq_true, if_false, if_true]
    split <;> rfl
  · rw [hs, hc] at h2
    rcases h2 with h2 | h2 <;> cases h2

/-- Claim C2 (amended): a usage row is appended exactly when authentication
succeeds and at least one search parameter is truthy — `county_search`
commits the log (with status 200) before running the lookup, so a request
that then fails with NotFound still appends a row; only authentication
failures and parameter-validation (400) failures leave the table
unchanged. -/
theorem county_search_logging (counties : List County) (db : Db) (req : Request)
    (token : String) (state county : Option String) (now logId : Nat) :
    ((∃ e, (verify_api_key db token now).1 = .error e) →
      (county_search counties db req token state county now logId).2.usage_logs =
        db.usage_logs) ∧
    (∀ k u, (verify_api_key db token now).1 = .ok (k, u) →
      (optTruthy state = false ∧ optTruthy county = false →
        (county_search counties db req token state county now logId).2.usage_logs =
          db.usage_logs) ∧
      ((optTruthy state = true ∨ optTruthy county = true) →
        (county_search counties db req token state county now logId).2.usage_logs =
          db.usage_logs ++
            [{ id := logId, user_id := u.id, api_key_str := k.key, endpoint := req.path,
               method := req.method, status_code := 200, timestamp := now }])) := by
  refine ⟨?_, ?_⟩
  · rintro ⟨e, h1⟩
    simp only [county_search, h1]
    exact verify_api_key_usage_logs db token now
  · intro k u h1
    refine ⟨?_, ?_⟩
    · rintro ⟨hs, hc⟩
      simp only [county_search, h1, hs, hc, Bool.not_false, Bool.and_self, if_true]
      exact verify_api_key_usage_logs db token now
    · intro h2
      rw [county_search_db_on_params counties db req token state county now logId k u h1 h2]
      simp [log_usage, verify_api_key_usage_logs db token now]

/-- Witness for the amended C2: an authenticated request for a state
absent from the dataset appends a usage row. -/
theorem county_search_logging_witness :
    (county_search sampleCounties sampleDb ⟨"/api/v2/search", "GET"⟩ "tok-abc"
        (some "NEVADA") none 5 1).2.usage_logs =
      sampleDb.usage_logs ++
        [{ id := 1, user_id := sampleUser.id, api_key_str := sampleKey.key,
           endpoint := "/api/v2/search", method := "GET", status_code := 200,
           timestamp := 5 }] :=
  ((county_search_logging sampleCounties sampleDb ⟨"/api/v2/search", "GET"⟩ "tok-abc"
      (some "NEVADA") none 5 1).2 ({ sampleKey with last_used_at := some 5 }) sampleUser
      (by decide)).2 (Or.inl (by decide))

/-- Counterexample to C2 as stated: this authenticated search request fails
with NotFound (404), yet a usage row (recorded with status 200) was
appended, so the usage table did not stay unchanged. -/
theorem county_search_not_found_still_logged :
    (county_search sampleCounties sampleDb ⟨"/api/v2/search", "GET"⟩ "tok-abc"
        (some "NEVADA") none 5 1).1 = .error (.httpError 404 "No results found") ∧
    sampleDb.usage_logs = [] ∧
    (county_search sampleCounties sampleDb ⟨"/api/v2/search", "GET"⟩ "tok-abc"
        (some "NEVADA") none 5 1).2.usage_logs =
      [{ id := 1, user_id := 1, api_key_str := "tok-abc", endpoint := "/api/v2/search",
         method := "GET", status_code := 200, timestamp := 5 }] := by
  decide

/-- Claim C3: a successfully handled authenticated search request appends
exactly one usage row for the authenticated user — the user's
`total_requests` count grows by exactly one — and that row records the
request path, the request method, and status 200, the status of the
successful response. -/
theorem county_search_success_logs_once (counties : List County) (db : Db) (req : Request)
    (token : String) (state county : Option String) (now logId : Nat) (r : SearchResult)
    (hok : (county_search counties db req token state county now logId).1 = .ok r) :
    ∃ k u, (verify_api_key db token now).1 = .ok (k, u) ∧
      (county_search counties db req token state county now logId).2.usage_logs =
        db.usage_logs ++
          [{ id := logId, user_id := u.id, api_key_str := k.key, endpoint := req.path,
             method := req.method, status_code := 200, timestamp := now }] ∧
      (get_usage (county_search counties db req token state county now logId).2 u.id).1 =
        (get_usage db u.id).1 + 1 := by
  cases h1 : (verify_api_key db token now).1 with
  | error e =>
    simp [county_search, h1] at hok
  | ok p =>
    obtain ⟨k, u⟩ := p
    have h2 : optTruthy state = true ∨ optTruthy county = true := by
      cases hs : optTruthy state with
      | true => exact Or.inl rfl
      | false =>
        cases hc : optTruthy county with
        | true => exact Or.inr rfl
        | false => simp [county_search, h1, hs, hc] at hok
    have hdb := county_search_db_on_params counties db req token state county now logId
      k u h1 h2
    refine ⟨k, u, rfl, ?_, ?_⟩
    · rw [hdb]
      simp [log_usage, verify_api_key_usage_logs db token now]
    · rw [hdb]
      simp [get_usage, log_usage, verify_api_key_usage_logs db token now,
        List.filter_append]

/-- Witness for C3: the successful sample request logs exactly one row and
bumps the user's count from 0 to 1. -/
theorem county_search_success_logs_once_witness :
    ∃ k u, (verify_api_key sampleDb "tok-abc" 5).1 = .ok (k, u) ∧
      (county_search sampleCounties sampleDb ⟨"/api/v2/search", "GET"⟩ "tok-abc"
          (some "Texas") none 5 1).2.usage_logs =
        sampleDb.usage_logs ++
          [{ id := 1, user_id := u.id, api_key_str := k.key, endpoint := "/api/v2/search",
             method := "GET", status_code := 200, timestamp := 5 }] ∧
      (get_usage (county_search sampleCounties sampleDb ⟨"/api/v2/search", "GET"⟩ "tok-abc"
          (some "Texas") none 5 1).2 u.id).1 =
        (get_usage sampleDb u.id).1 + 1 :=
  county_search_success_logs_once sampleCounties sampleDb ⟨"/api/v2/search", "GET"⟩
    "tok-abc" (some "Texas") none 5 1
    (.records [⟨"HARRIS COUNTY", "TEXAS", "48201", "TX"⟩,
               ⟨"TRAVIS COUNTY", "TEXAS", "48453", "TX"⟩,
               ⟨"WASHINGTON COUNTY", "TEXAS", "48477", "TX"⟩]) (by decide)

/-- Counterexample to C8 as stated: user 7 exists but is inactive;
creating a key for them succeeds and returns the token, yet immediately
authenticating with that token fails with 401 instead of resolving to the
user. -/
theorem create_then_verify_counterexample :
    (⟨7, "bob@example.com", "Bob", false, 0⟩ : User) ∈ inactiveUserDb.users ∧
    (create_api_key inactiveUserDb 7 "ci" "tok-new" 0).1 = .ok ("tok-new", 7, "ci") ∧
    (verify_api_key (create_api_key inactiveUserDb 7 "ci" "tok-new" 0).2 "tok-new" 1).1 =
      .error (.httpError 401 "User account is inactive") := by
  decide

/-- Claim C8 (amended): for every existing **active** user, creating an API
key with a token no stored key already uses returns that token, and
immediately authenticating with it resolves to a key-user pair whose user
id equals the `user_id` passed at creation. -/
theorem create_then_verify (db : Db) (user_id : Nat) (name token : String) (now now2 : Nat)
    (hfresh : ∀ k ∈ db.api_keys, k.key ≠ token)
    (hactive : ∃ u ∈ db.users, u.id = user_id ∧ u.is_active = true) :
    ∃ u : User,
      (create_api_key db user_id name token now).1 = .ok (token, user_id, name) ∧
      (verify_api_key (create_api_key db user_id name token now).2 token now2).1 =
        .ok ({ key := token, user_id := user_id, name := name, is_active := true,
               created_at := now, last_used_at := some now2 }, u) ∧
      u.id = user_id := by
  obtain ⟨u0, hu0, hid0, hact0⟩ := hactive
  have hcreate : db.users.find? (fun u => u.id == user_id) ≠ none := by
    intro hnone
    rw [List.find?_eq_none] at hnone
    exact hnone u0 hu0 (by simp [hid0])
  cases hfind : db.users.find? (fun u => u.id == user_id) with
  | none => exact absurd hfind hcreate
  | some u1 =>
    have hkeys : ((create_api_key db user_id name token now).2).api_keys =
        db.api_keys ++ [(⟨token, user_id, name, true, now, none⟩ : APIKey)] := by
      simp [create_api_key, hfind]
    have husers : ((create_api_key db user_id name token now).2).users = db.users := by
      simp [create_api_key, hfind]
    have hfind1 : (db.api_keys ++ [(⟨token, user_id, name, true, now, none⟩ : APIKey)]).find?
          (fun k => k.key == token && k.is_active) =
        some (⟨token, user_id, name, true, now, none⟩ : APIKey) := by
      rw [List.find?_append]
      have hnone : db.api_keys.find? (fun k => k.key == token && k.is_active) = none := by
        rw [List.find?_eq_none]
        intro x hx hmatch
        simp only [Bool.and_eq_true, beq_iff_eq] at hmatch
        exact hfresh x hx hmatch.1
      rw [hnone]
      simp
    have hfind2 : db.users.find? (fun u => u.id == user_id && u.is_active) ≠ none := by
      intro hnone
      rw [List.find?_eq_none] at hnone
      exact hnone u0 hu0 (by simp [hid0, hact0])
    cases hfindu : db.users.find? (fun u => u.id == user_id && u.is_active) with
    | none => exact absurd hfindu hfind2
    | some u2 =>
      have hu2 := List.find?_some hfindu
      simp only [Bool.and_eq_true, beq_iff_eq] at hu2
      refine ⟨u2, by simp [create_api_key, hfind], ?_, hu2.1⟩
      simp only [verify_api_key, hkeys, husers, hfind1, hfindu]

/-- Witness for the amended C8: creating a key for the active user 3 and
authenticating with it resolves back to user 3. -/
theorem create_then_verify_witness :
    ∃ u : User,
      (create_api_key activeUserDb 3 "ci" "tok-w" 0).1 = .ok ("tok-w", 3, "ci") ∧
      (verify_api_key (create_api_key activeUserDb 3 "ci" "tok-w" 0).2 "tok-w" 1).1 =
        .ok ({ key := "tok-w", user_id := 3, name := "ci", is_active := true,
               created_at := 0, last_used_at := some 1 }, u) ∧
      u.id = 3 :=
  create_then_verify activeUserDb 3 "ci" "tok-w" 0 1 (by decide)
    ⟨⟨3, "carol@example.com", "Carol", true, 0⟩, by decide, rfl, rfl⟩

end Pfips
